import Mathlib

/-!
Verification of the slide-generation backend (server/index.js) of the
Lisa presentation maker.

The backend is sequential glue around two external HTTP APIs (a chat
completion API and an image generation API).  The embedding below models
each external call site by an explicit oracle value describing what the
call produced (threw, returned no content, returned unparsable text, or
returned a parsed JSON value), and models the JavaScript values flowing
through the handlers with an explicit JSON/JS value type.  Randomness
(layout choice) and the clock (filename timestamps) are likewise passed
in explicitly, so every function here is a pure, executable translation
of the corresponding source function.
-/

namespace Lisa

/-- JavaScript values as they occur in this pipeline: the result of
JSON.parse (null, booleans, numbers, strings, arrays, objects) plus
the JS undefined value (which JSON.parse never produces, but which the
handler code can put into a slide title via outline.map when an outline
entry lacks a title).  Numbers are modelled as integers; no code path
in this server does arithmetic on parsed numbers. -/
inductive Json where
  | null : Json
  | undef : Json
  | bool : Bool → Json
  | num : Int → Json
  | str : String → Json
  | arr : List Json → Json
  | obj : List (String × Json) → Json

/-- Outcome of one chat-completion API call, as observed by the code:
the call threw (network error and similar), the first choice had no
message content, the content was present but JSON.parse threw on it,
or JSON.parse succeeded with the given value.  This is the oracle for
both generateOutline and generateSlideContent. -/
inductive CompletionResp where
  | throws : CompletionResp
  | noContent : CompletionResp
  | unparsable : CompletionResp
  | parsed : Json → CompletionResp

/-- True on exactly the completion outcomes that reach the catch block
before JSON.parse yields a value: a thrown call, missing content, or a
JSON.parse failure. -/
def respFailed : CompletionResp → Bool
  | CompletionResp.parsed _ => false
  | _ => true

/-- JS truthiness of an optional string field: a present, non-empty
string is truthy; a missing field (undefined) and the empty string are
falsy.  Used for outline[0].title and for the image API key check. -/
def jsTruthy : Option String → Bool
  | some s => s != ""
  | none => false

/-- Last-wins association lookup, matching how duplicate keys behave in
a parsed JSON object. -/
def lookupLast (fields : List (String × Json)) (k : String) : Option Json :=
  match fields with
  | [] => none
  | (k2, v) :: rest =>
    match lookupLast rest k with
    | some v2 => some v2
    | none => if k2 = k then some v else none

/-- JS member access parsed.k.  Returns none when the access itself
throws a TypeError (access on null or undefined), some none when the
member is absent (undefined), and some (some v) when present.  On
non-object primitives and arrays the access yields undefined. -/
def jsGetField : Json → String → Option (Option Json)
  | Json.null, _ => none
  | Json.undef, _ => none
  | Json.obj fields, k => some (lookupLast fields k)
  | _, _ => some none

/-- paragraphs.map(p => p.trim()): trims each element, but throws a
TypeError (modelled as none) when an element is not a string, because
only strings have a trim method. -/
def trimmedParagraphs : List Json → Option (List String)
  | [] => some []
  | Json.str s :: rest =>
    match trimmedParagraphs rest with
    | some ts => some (s.trim :: ts)
    | none => none
  | _ :: _ => none

/-! ### generateOutline (server/index.js lines 63-92)

The prompt string built at line 64 asks the model for numSlides titles;
the prompt text itself is not inspected by any later code, so only the
post-processing of the response is embedded here. -/

/-- The fixed fallback of the catch block at lines 86-90: three generic
titles derived from the topic. -/
def fallbackOutline (topic : String) : List Json :=
  [Json.str ("Introduction to " ++ topic),
   Json.str ("Key Concepts of " ++ topic),
   Json.str ("Applications of " ++ topic)]

/-- generateOutline: on JSON.parse success, returns the parsed value
when it is an array and the empty array otherwise (line 83); any
failure before that point lands in the catch block and returns the
three fallback titles.  numSlides only enters the prompt text. -/
def generateOutline (topic : String) (numSlides : Nat) (resp : CompletionResp) : List Json :=
  match resp with
  | CompletionResp.parsed (Json.arr elems) => elems
  | CompletionResp.parsed _ => []
  | _ => fallbackOutline topic

/-! ### generateSlideContent (server/index.js lines 95-201) -/

/-- The maxTokens assignments of generateSlideContent (lines 95-135).
The accompanying prompt strings of those branches are long literal
instruction texts that no later code inspects; only the token budget
set alongside each prompt is embedded.  slideIndex 0 fixes 250; index 2
uses 200/180/150/120 for Extensive/Detailed/Concise/anything-else; all
other indices use 200/180/200/200. -/
def slideContentMaxTokens (slideIndex : Nat) (amountOfText : String) : Nat :=
  if slideIndex = 0 then 250
  else if slideIndex = 2 then
    if amountOfText = "Extensive" then 200
    else if amountOfText = "Detailed" then 180
    else if amountOfText = "Concise" then 150
    else 120
  else
    if amountOfText = "Extensive" then 200
    else if amountOfText = "Detailed" then 180
    else if amountOfText = "Concise" then 200
    else 200

/-- The maxParagraphs truncation table of generateSlideContent
(lines 168-190): 1 for slide 0; 6/5/4/3 for slide 2 keyed by
amountOfText; 2/2/1/2 for every other slide. -/
def maxParagraphs (slideIndex : Nat) (amountOfText : String) : Nat :=
  if slideIndex = 0 then 1
  else if slideIndex = 2 then
    if amountOfText = "Extensive" then 6
    else if amountOfText = "Detailed" then 5
    else if amountOfText = "Concise" then 4
    else 3
  else if amountOfText = "Extensive" then 2
  else if amountOfText = "Detailed" then 2
  else if amountOfText = "Concise" then 1
  else 2

/-- The fixed fallback of the catch block at lines 195-200: one
placeholder string for slide 0, two placeholder strings otherwise. -/
def contentFallback (slideIndex : Nat) : List Json :=
  if slideIndex = 0 then
    [Json.str "Sample professional opening paragraph for slide one."]
  else
    [Json.str "Sample professional paragraph 1",
     Json.str "Sample professional paragraph 2"]

/-- The try-block body of generateSlideContent after JSON.parse
succeeded with value j (lines 156-165): slide 2 takes parsed.bullets
when that is an array and [] otherwise; every other slide takes
parsed.paragraphs, trimmed element-wise, and [] when it is not an
array.  Returns none exactly when this body throws (member access on
null, or trim on a non-string paragraph), which sends control to the
catch block. -/
def slideContentOfJson (slideIndex : Nat) (j : Json) : Option (List Json) :=
  if slideIndex = 2 then
    match jsGetField j "bullets" with
    | none => none
    | some (some (Json.arr xs)) => some xs
    | some _ => some []
  else
    match jsGetField j "paragraphs" with
    | none => none
    | some (some (Json.arr xs)) =>
      match trimmedParagraphs xs with
      | some ts => some (ts.map Json.str)
      | none => none
    | some _ => some []

/-- True exactly when generateSlideContent ends in its catch block for
this completion outcome: the call failed outright, or the parsed value
made the try block throw. -/
def contentFallsBack (slideIndex : Nat) (resp : CompletionResp) : Bool :=
  match resp with
  | CompletionResp.parsed j => (slideContentOfJson slideIndex j).isNone
  | _ => true

/-- generateSlideContent (lines 95-201), returning the bullets array of
the result object: on success the normalized content truncated to
maxParagraphs entries; on any failure the fixed fallback.  slideTitle
and topic only enter the prompt text sent to the API, which the oracle
resp stands for. -/
def generateSlideContent (slideTitle topic amountOfText : String) (slideIndex : Nat)
    (resp : CompletionResp) : List Json :=
  match resp with
  | CompletionResp.parsed j =>
    match slideContentOfJson slideIndex j with
    | some bullets => bullets.take (maxParagraphs slideIndex amountOfText)
    | none => contentFallback slideIndex
  | _ => contentFallback slideIndex

/-! ### Image filename generation (server/index.js lines 56-60) -/

/-- ASCII letter or digit: the character class a-zA-Z0-9 of the
sanitizing regex at line 58. -/
def isAlphanumAscii (c : Char) : Bool :=
  (65 ≤ c.toNat && c.toNat ≤ 90) || (97 ≤ c.toNat && c.toNat ≤ 122) ||
    (48 ≤ c.toNat && c.toNat ≤ 57)

/-- prompt.replace(non-alphanumeric, underscore).substring(0, 20)
from line 58: every character outside a-zA-Z0-9 is replaced by an
underscore, then the result is cut to its first 20 characters. -/
def sanitizedPrompt (prompt : String) : String :=
  String.mk ((prompt.data.map (fun c => if isAlphanumAscii c then c else '_')).take 20)

/-- generateImageFilename (lines 56-60).  The source reads Date.now()
internally; the embedding passes that clock reading in as the explicit
timestamp argument, making the function pure in (prompt, index,
timestamp). -/
def generateImageFilename (prompt : String) (index : Nat) (timestamp : Nat) : String :=
  "slide_" ++ toString index ++ "_" ++ sanitizedPrompt prompt ++ "_" ++
    toString timestamp ++ ".jpg"

/-! ### Image generation client (server/index.js lines 36-53, 204-245) -/

/-- Process environment slice the image client reads. -/
structure Env where
  ideogramApiKey : Option String

/-- Outcome of one image-API HTTP call: the request threw (network
error, non-2xx, timeout), or it returned and response.data.data[0].url
was the given optional URL. -/
inductive ImageApiResult where
  | throws : ImageApiResult
  | ok : Option String → ImageApiResult

/-- Outcome of the axios download inside downloadAndSaveImage: either
the fetch and local write succeed, or any step fails. -/
inductive DownloadResult where
  | success : DownloadResult
  | failure : DownloadResult

/-- downloadAndSaveImage (lines 37-53): on success returns the local
/uploads URL for the written file, on any failure returns null.  The
remote imageUrl only drives the fetch, which the dl oracle stands
for. -/
def downloadAndSaveImage (imageUrl : String) (filename : String)
    (dl : DownloadResult) : Option String :=
  match dl with
  | DownloadResult.success => some ("/uploads/" ++ filename)
  | DownloadResult.failure => none

/-- generateIdeogramImage (lines 204-245): throws immediately when the
environment's API key is falsy (missing or empty), otherwise calls the
image API and, when a URL came back, downloads it to a generated
filename; every failure is caught and becomes null. -/
def generateIdeogramImage (env : Env) (prompt style : String) (slideIndex : Nat)
    (api : ImageApiResult) (dl : DownloadResult) (timestamp : Nat) : Option String :=
  if jsTruthy env.ideogramApiKey = false then none
  else
    match api with
    | ImageApiResult.throws => none
    | ImageApiResult.ok none => none
    | ImageApiResult.ok (some remoteUrl) =>
      downloadAndSaveImage remoteUrl
        (generateImageFilename prompt slideIndex timestamp) dl

/-- An HTTP route outcome: a JSON body with status 200, or the
500-style error produced by a route's catch block. -/
inductive HttpResult (α : Type) where
  | ok : α → HttpResult α
  | serverError : String → String → HttpResult α

/-- Response body of POST /api/generate-image. -/
structure GenerateImageResponse where
  imageUrl : Option String

/-- The /api/generate-image route (lines 319-327).  Its catch block is
unreachable in this model because generateIdeogramImage catches every
failure of its own and returns null instead of throwing. -/
def handleGenerateImage (env : Env) (prompt style : String) (slideIndex : Nat)
    (api : ImageApiResult) (dl : DownloadResult) (timestamp : Nat) :
    HttpResult GenerateImageResponse :=
  HttpResult.ok { imageUrl := generateIdeogramImage env prompt style slideIndex api dl timestamp }

/-! ### The /api/generate route (server/index.js lines 248-312) -/

/-- One entry of the request's outline array; title is optional because
the route only uses entries through their title member. -/
structure OutlineEntry where
  title : Option String

/-- The request body fields destructured at line 249.  slideCount 0
plays the role of an absent or zero slideCount (both are falsy at
line 252). -/
structure GenerationRequest where
  title : String
  outline : List OutlineEntry
  theme : String
  amountOfText : String
  slideCount : Nat
  imageSource : String
  imageStyle : String

/-- numSlides at line 252: outline.length when the outline is
non-empty, otherwise slideCount when truthy, otherwise 5. -/
def computeNumSlides (outline : List OutlineEntry) (slideCount : Nat) : Nat :=
  if outline.length = 0 then (if slideCount = 0 then 5 else slideCount)
  else outline.length

/-- The condition of line 253: the supplied outline is used exactly
when it is non-empty and its FIRST entry has a truthy title. -/
def usesSuppliedOutline : List OutlineEntry → Bool
  | [] => false
  | e :: _ => jsTruthy e.title

/-- outline.map(s => s.title) at line 254: a present title maps to the
string, an absent one to JS undefined. -/
def jsonOfTitle : Option String → Json
  | some s => Json.str s
  | none => Json.undef

/-- The outlineTitles value of lines 253-255. -/
def outlineTitlesOf (req : GenerationRequest) (resp : CompletionResp) : List Json :=
  if usesSuppliedOutline req.outline then
    req.outline.map (fun e => jsonOfTitle e.title)
  else
    generateOutline req.title (computeNumSlides req.outline req.slideCount) resp

/-- JS string coercion of the values that can reach a string
concatenation in this pipeline (slide titles fed into the image
prompt).  Primitives stringify the JS way, arrays as comma-joined
elements, objects as the generic object tag. -/
def jsStringOfJson : Json → String
  | Json.null => "null"
  | Json.undef => "undefined"
  | Json.bool true => "true"
  | Json.bool false => "false"
  | Json.num n => toString n
  | Json.str s => s
  | Json.arr xs => String.intercalate "," (xs.attach.map (fun x => jsStringOfJson x.1))
  | Json.obj _ => "[object Object]"
decreasing_by
  have h := List.sizeOf_lt_of_mem x.2
  simp only [Json.arr.sizeOf_spec]
  omega

/-- All external nondeterminism of one /api/generate request, indexed
by slide position where a call is made per slide: the outline
completion outcome, each slide's content completion outcome, each
slide's image API outcome, each slide's download outcome, each slide's
Math.random draw (already floored into 0..3), and each slide's
Date.now reading. -/
structure Oracle where
  outlineResp : CompletionResp
  contentResp : Nat → CompletionResp
  imageResp : Nat → ImageApiResult
  downloadResp : Nat → DownloadResult
  rand : Nat → Fin 4
  timestamp : Nat → Nat

/-- The four layout options of line 272. -/
def layoutOptions : List String :=
  ["image-left", "image-right", "image-bottom", "text-only"]

/-- Layout selection of lines 266-276: index 0 is always image-left,
every other index picks layoutOptions[randIndex]. -/
def chooseLayout (idx : Nat) (randIndex : Fin 4) : String :=
  if idx = 0 then "image-left"
  else layoutOptions.getD randIndex.val "image-left"

/-- The optional image object attached to a slide (lines 284-289). -/
structure SlideImage where
  url : String
  alt : Json
  source : String
  style : String

/-- One slide of the response (lines 278-290).  title and bullets carry
Json values because the source threads raw parsed-JSON array elements
into these fields. -/
structure SlideRecord where
  id : String
  title : Json
  bullets : List Json
  layout : String
  theme : String
  image : Option SlideImage

/-- The imageUrl local of lines 260-263: only computed when
imageSource is not the literal None, with the image prompt being the
slide title concatenated with the image style. -/
def assembleSlideImage (req : GenerationRequest) (env : Env) (o : Oracle)
    (idx : Nat) (slideTitle : Json) : Option String :=
  if req.imageSource != "None" then
    generateIdeogramImage env (jsStringOfJson slideTitle ++ " " ++ req.imageStyle)
      req.imageStyle idx (o.imageResp idx) (o.downloadResp idx) (o.timestamp idx)
  else none

/-- The per-slide body of the Promise.all callback (lines 258-291). -/
def assembleSlide (req : GenerationRequest) (env : Env) (o : Oracle)
    (idx : Nat) (slideTitle : Json) : SlideRecord :=
  { id := "slide-" ++ toString (idx + 1)
    title := slideTitle
    bullets := generateSlideContent (jsStringOfJson slideTitle) req.title
      req.amountOfText idx (o.contentResp idx)
    layout := chooseLayout idx (o.rand idx)
    theme := req.theme
    image := (assembleSlideImage req env o idx slideTitle).map (fun u =>
      { url := u, alt := slideTitle, source := req.imageSource, style := req.imageStyle }) }

/-- outlineTitles.map with index (line 258); Promise.all preserves the
input order, so the response slides follow the title order. -/
def assembleSlides (req : GenerationRequest) (env : Env) (o : Oracle) :
    List Json → Nat → List SlideRecord
  | [], _ => []
  | t :: ts, idx => assembleSlide req env o idx t :: assembleSlides req env o ts (idx + 1)

/-- The meta object echoed at lines 301-307. -/
structure ResponseMeta where
  title : String
  theme : String
  amountOfText : String
  imageSource : String
  imageStyle : String

/-- Response body of POST /api/generate (lines 299-308). -/
structure GenerateResponse where
  slides : List SlideRecord
  meta : ResponseMeta

/-- The /api/generate route (lines 248-312).  The route's catch block
is unreachable in this model: every per-slide failure is absorbed
inside generateSlideContent and generateIdeogramImage, so the handler
always reaches res.json. -/
def handleGenerate (req : GenerationRequest) (env : Env) (o : Oracle) : GenerateResponse :=
  { slides := assembleSlides req env o (outlineTitlesOf req o.outlineResp) 0
    meta := { title := req.title, theme := req.theme, amountOfText := req.amountOfText,
              imageSource := req.imageSource, imageStyle := req.imageStyle } }

/-! ### Concrete fixtures used by witnesses -/

/-- Holds when the outline completion either failed outright (any
fallback-triggering outcome) or returned a JSON array of exactly the 3
requested titles: the environment honored the request or failed.  Only
a parsed non-array, or an array of a different length, violates it. -/
def outlineRespYields3 : CompletionResp → Bool
  | CompletionResp.parsed (Json.arr xs) => xs.length == 3
  | CompletionResp.parsed _ => false
  | _ => true

/-- The end-to-end scenario request of the spec: topic Solar Power,
empty outline, 3 slides, Minimal text, no images. -/
def solarReq (theme imageStyle : String) : GenerationRequest :=
  { title := "Solar Power", outline := [], theme := theme,
    amountOfText := "Minimal", slideCount := 3,
    imageSource := "None", imageStyle := imageStyle }

/-- An oracle on which every external call fails. -/
def oracle0 : Oracle :=
  { outlineResp := CompletionResp.throws
    contentResp := fun _ => CompletionResp.throws
    imageResp := fun _ => ImageApiResult.throws
    downloadResp := fun _ => DownloadResult.failure
    rand := fun _ => 0
    timestamp := fun _ => 0 }

/-- A one-slide request with a supplied outline title and no images. -/
def reqA : GenerationRequest :=
  { title := "Topic", outline := [{ title := some "A" }], theme := "default",
    amountOfText := "Minimal", slideCount := 0,
    imageSource := "None", imageStyle := "" }

/-- The slide reqA yields on oracle0. -/
def slideA : SlideRecord :=
  { id := "slide-1", title := Json.str "A",
    bullets := [Json.str "Sample professional opening paragraph for slide one."],
    layout := "image-left", theme := "default", image := none }

/-- An oracle whose image calls succeed and whose completion calls
fail. -/
def oracleImg : Oracle :=
  { outlineResp := CompletionResp.throws
    contentResp := fun _ => CompletionResp.throws
    imageResp := fun _ => ImageApiResult.ok (some "https://img.example/x.png")
    downloadResp := fun _ => DownloadResult.success
    rand := fun _ => ⟨2, by omega⟩
    timestamp := fun _ => 1700000000000 }

/-- A two-slide request with supplied titles and Ideogram images. -/
def reqImg : GenerationRequest :=
  { title := "Topic", outline := [{ title := some "A" }, { title := some "B" }],
    theme := "dark", amountOfText := "Concise", slideCount := 0,
    imageSource := "Ideogram", imageStyle := "Photographic" }

/-- An environment holding an image API key. -/
def envImg : Env := { ideogramApiKey := some "k" }

/-- The second slide reqImg yields on oracleImg in envImg. -/
def slideB : SlideRecord :=
  { id := "slide-2", title := Json.str "B",
    bullets := [Json.str "Sample professional paragraph 1",
                Json.str "Sample professional paragraph 2"],
    layout := "image-bottom", theme := "dark",
    image := some { url := "/uploads/slide_1_B_Photographic_1700000000000.jpg",
                    alt := Json.str "B", source := "Ideogram", style := "Photographic" } }

/-! ### Helper lemmas -/

theorem assembleSlides_length (req : GenerationRequest) (env : Env) (o : Oracle)
    (ts : List Json) (idx : Nat) :
    (assembleSlides req env o ts idx).length = ts.length := by
  induction ts generalizing idx with
  | nil => rfl
  | cons t ts ih => simp [assembleSlides, ih]

theorem assembleSlides_get (req : GenerationRequest) (env : Env) (o : Oracle)
    (ts : List Json) (idx i : Nat) :
    (assembleSlides req env o ts idx).get? i
      = (ts.get? i).map (fun t => assembleSlide req env o (idx + i) t) := by
  induction ts generalizing idx i with
  | nil => cases i <;> rfl
  | cons t ts ih =>
    cases i with
    | zero => rfl
    | succ n =>
      have h := ih (idx + 1) n
      simp only [assembleSlides, List.get?]
      rw [h]
      have : idx + 1 + n = idx + (n + 1) := by omega
      rw [this]

theorem mem_assembleSlides (req : GenerationRequest) (env : Env) (o : Oracle)
    (s : SlideRecord) (ts : List Json) (idx : Nat)
    (hs : s ∈ assembleSlides req env o ts idx) :
    ∃ i t, s = assembleSlide req env o i t := by
  induction ts generalizing idx with
  | nil => simp [assembleSlides] at hs
  | cons t ts ih =>
    simp only [assembleSlides, List.mem_cons] at hs
    cases hs with
    | inl h => exact ⟨idx, t, h⟩
    | inr h => exact ih (idx + 1) h

theorem assembleSlides_map_title (req : GenerationRequest) (env : Env) (o : Oracle)
    (ts : List Json) (idx : Nat) :
    (assembleSlides req env o ts idx).map SlideRecord.title = ts := by
  induction ts generalizing idx with
  | nil => rfl
  | cons t ts ih => simp [assembleSlides, assembleSlide, ih]

theorem chooseLayout_mem (idx : Nat) (r : Fin 4) :
    chooseLayout idx r ∈ layoutOptions := by
  unfold chooseLayout layoutOptions
  by_cases h : idx = 0
  · simp [h]
  · rcases r with ⟨v, hv⟩
    interval_cases v <;> simp [h]

theorem generateSlideContent_of_success (slideTitle topic amountOfText : String)
    (idx : Nat) (j : Json) (bs : List Json) (h : slideContentOfJson idx j = some bs) :
    generateSlideContent slideTitle topic amountOfText idx (CompletionResp.parsed j)
      = bs.take (maxParagraphs idx amountOfText) := by
  simp [generateSlideContent, h]

theorem generateSlideContent_of_fallback (slideTitle topic amountOfText : String)
    (idx : Nat) (resp : CompletionResp) (h : contentFallsBack idx resp = true) :
    generateSlideContent slideTitle topic amountOfText idx resp = contentFallback idx := by
  cases resp with
  | parsed j =>
    simp only [contentFallsBack, Option.isNone_iff_eq_none] at h
    simp [generateSlideContent, h]
  | throws => rfl
  | noContent => rfl
  | unparsable => rfl

theorem generateSlideContent_zero_length_le (slideTitle topic amountOfText : String)
    (resp : CompletionResp) :
    (generateSlideContent slideTitle topic amountOfText 0 resp).length ≤ 1 := by
  cases resp with
  | parsed j =>
    cases h : slideContentOfJson 0 j with
    | some bs =>
      rw [generateSlideContent_of_success _ _ _ _ _ _ h]
      have h1 : maxParagraphs 0 amountOfText = 1 := rfl
      rw [h1]
      simp [List.length_take]
    | none =>
      have hf : contentFallsBack 0 (CompletionResp.parsed j) = true := by
        simp [contentFallsBack, h]
      rw [generateSlideContent_of_fallback _ _ _ _ _ hf]
      rfl
  | throws => exact Nat.le_refl 1
  | noContent => exact Nat.le_refl 1
  | unparsable => exact Nat.le_refl 1

theorem jsStringOfJson_str (s : String) : jsStringOfJson (Json.str s) = s := by
  simp [jsStringOfJson]

theorem fallbackOutline_mem (topic : String) (t : Json) (ht : t ∈ fallbackOutline topic) :
    ∃ pre post, t = Json.str (pre ++ topic ++ post) := by
  simp only [fallbackOutline, List.mem_cons, List.not_mem_nil, or_false] at ht
  rcases ht with rfl | rfl | rfl
  · exact ⟨"Introduction to ", "", by rw [String.append_empty]⟩
  · exact ⟨"Key Concepts of ", "", by rw [String.append_empty]⟩
  · exact ⟨"Applications of ", "", by rw [String.append_empty]⟩

/-! ### Claims -/

/-- Claim C1, counterexample: on a success path of content generation
(the completion API returned the valid JSON object with no paragraphs
array, so JSON.parse succeeded and no exception fired), slide index 0
receives zero content entries, not exactly 1. -/
theorem C1_counterexample :
    (generateSlideContent "Opening" "Solar Power" "Minimal" 0
      (CompletionResp.parsed (Json.obj []))).length ≠ 1 := by decide

/-- Claim C1 (amended): for every request the slide at index 0 of the
/api/generate response has layout image-left and at most 1 content
entry, for every amountOfText value; on the fallback path of content
generation the count is exactly 1, but a success path may yield 0
entries. -/
theorem C1_slide0_layout_and_bullets (req : GenerationRequest) (env : Env) (o : Oracle)
    (s : SlideRecord) (hs : (handleGenerate req env o).slides.get? 0 = some s)
    (slideTitle topic amountOfText : String) (resp : CompletionResp) :
    s.layout = "image-left" ∧ s.bullets.length ≤ 1 ∧
    (contentFallsBack 0 resp = true →
      (generateSlideContent slideTitle topic amountOfText 0 resp).length = 1) := by
  have hslides : (handleGenerate req env o).slides
      = assembleSlides req env o (outlineTitlesOf req o.outlineResp) 0 := rfl
  rw [hslides, assembleSlides_get] at hs
  cases ht : (outlineTitlesOf req o.outlineResp).get? 0 with
  | none => rw [ht] at hs; simp at hs
  | some t =>
    rw [ht] at hs
    simp only [Option.map_some'] at hs
    injection hs with hs
    subst hs
    refine ⟨rfl, ?_, ?_⟩
    · exact generateSlideContent_zero_length_le (jsStringOfJson t) req.title
        req.amountOfText (o.contentResp 0)
    · intro h
      rw [generateSlideContent_of_fallback _ _ _ _ _ h]
      rfl

/-- Witness for C1 at a concrete request, environment, oracle and
slide. -/
theorem C1_witness :
    (handleGenerate reqA ⟨none⟩ oracle0).slides.get? 0 = some slideA ∧
    (slideA.layout = "image-left" ∧ slideA.bullets.length ≤ 1 ∧
      (contentFallsBack 0 CompletionResp.throws = true →
        (generateSlideContent "T" "Topic" "Minimal" 0 CompletionResp.throws).length = 1)) :=
  ⟨rfl, C1_slide0_layout_and_bullets reqA ⟨none⟩ oracle0 slideA rfl "T" "Topic" "Minimal"
    CompletionResp.throws⟩

/-- Claim C2, counterexample: on the error-fallback path the bullets
array for slide index 1 with amountOfText Concise has 2 entries, not
at most the documented Concise maximum of 1. -/
theorem C2_counterexample :
    ¬ ((generateSlideContent "T" "Topic" "Concise" 1 CompletionResp.throws).length ≤ 1) := by
  decide

/-- Claim C2 (amended): for slide indices other than 0 and 2 the
per-density caps are Extensive 2, Detailed 2, Concise 1, Minimal 2;
on a non-throwing success path the bullets array respects the cap (in
particular at most 1 entry for Concise), but on the error-fallback
path it always has exactly 2 entries, exceeding the Concise cap. -/
theorem C2_nonspecial_bullet_caps (slideTitle topic amountOfText : String) (idx : Nat)
    (resp : CompletionResp) (h0 : idx ≠ 0) (h2 : idx ≠ 2) :
    (maxParagraphs idx "Extensive" = 2 ∧ maxParagraphs idx "Detailed" = 2 ∧
      maxParagraphs idx "Concise" = 1 ∧ maxParagraphs idx "Minimal" = 2) ∧
    (contentFallsBack idx resp = false →
      (generateSlideContent slideTitle topic amountOfText idx resp).length
        ≤ maxParagraphs idx amountOfText) ∧
    (amountOfText = "Concise" → contentFallsBack idx resp = false →
      (generateSlideContent slideTitle topic amountOfText idx resp).length ≤ 1) ∧
    (contentFallsBack idx resp = true →
      (generateSlideContent slideTitle topic amountOfText idx resp).length = 2) := by
  have htable : maxParagraphs idx "Extensive" = 2 ∧ maxParagraphs idx "Detailed" = 2 ∧
      maxParagraphs idx "Concise" = 1 ∧ maxParagraphs idx "Minimal" = 2 := by
    refine ⟨?_, ?_, ?_, ?_⟩ <;> simp [maxParagraphs, h0, h2]
  have hb : contentFallsBack idx resp = false →
      (generateSlideContent slideTitle topic amountOfText idx resp).length
        ≤ maxParagraphs idx amountOfText := by
    intro h
    cases resp with
    | parsed j =>
      cases hj : slideContentOfJson idx j with
      | none => simp [contentFallsBack, hj] at h
      | some bs =>
        rw [generateSlideContent_of_success _ _ _ _ _ _ hj]
        simp [List.length_take]
    | throws => simp [contentFallsBack] at h
    | noContent => simp [contentFallsBack] at h
    | unparsable => simp [contentFallsBack] at h
  refine ⟨htable, hb, ?_, ?_⟩
  · intro hc h
    subst hc
    exact (hb h).trans (le_of_eq htable.2.2.1)
  · intro h
    rw [generateSlideContent_of_fallback _ _ _ _ _ h]
    simp [contentFallback, h0]

/-- Witness for C2 at slide index 1 with a successful Minimal-density
completion carrying three paragraphs. -/
theorem C2_witness :
    ((1 : Nat) ≠ 0 ∧ (1 : Nat) ≠ 2) ∧
    ((maxParagraphs 1 "Extensive" = 2 ∧ maxParagraphs 1 "Detailed" = 2 ∧
      maxParagraphs 1 "Concise" = 1 ∧ maxParagraphs 1 "Minimal" = 2) ∧
    (contentFallsBack 1 (CompletionResp.parsed (Json.obj [("paragraphs",
        Json.arr [Json.str "p1", Json.str "p2", Json.str "p3"])])) = false →
      (generateSlideContent "T" "Top" "Minimal" 1 (CompletionResp.parsed (Json.obj [("paragraphs",
        Json.arr [Json.str "p1", Json.str "p2", Json.str "p3"])]))).length
        ≤ maxParagraphs 1 "Minimal") ∧
    ("Minimal" = "Concise" → contentFallsBack 1 (CompletionResp.parsed (Json.obj [("paragraphs",
        Json.arr [Json.str "p1", Json.str "p2", Json.str "p3"])])) = false →
      (generateSlideContent "T" "Top" "Minimal" 1 (CompletionResp.parsed (Json.obj [("paragraphs",
        Json.arr [Json.str "p1", Json.str "p2", Json.str "p3"])]))).length ≤ 1) ∧
    (contentFallsBack 1 (CompletionResp.parsed (Json.obj [("paragraphs",
        Json.arr [Json.str "p1", Json.str "p2", Json.str "p3"])])) = true →
      (generateSlideContent "T" "Top" "Minimal" 1 (CompletionResp.parsed (Json.obj [("paragraphs",
        Json.arr [Json.str "p1", Json.str "p2", Json.str "p3"])]))).length = 2)) :=
  ⟨⟨by decide, by decide⟩,
    C2_nonspecial_bullet_caps "T" "Top" "Minimal" 1
      (CompletionResp.parsed (Json.obj [("paragraphs",
        Json.arr [Json.str "p1", Json.str "p2", Json.str "p3"])]))
      (by decide) (by decide)⟩

/-- Claim C3, counterexample: when the completion returns valid JSON
that is not an array (the number 7), generateOutline returns the empty
list, not 3 fallback titles. -/
theorem C3_counterexample :
    (generateOutline "Solar" 5 (CompletionResp.parsed (Json.num 7))).length ≠ 3 := by decide

/-- Claim C3 (amended): when the completion call throws, returns no
content, or returns unparsable JSON, generateOutline returns exactly 3
fallback titles each containing the requested topic string; but when
it returns valid JSON that is not an array, generateOutline returns
the empty list instead. -/
theorem C3_outline_failure_fallback (topic : String) (numSlides : Nat) (resp : CompletionResp) :
    (respFailed resp = true →
      (generateOutline topic numSlides resp).length = 3 ∧
      ∀ t ∈ generateOutline topic numSlides resp,
        ∃ pre post, t = Json.str (pre ++ topic ++ post)) ∧
    (∀ j, resp = CompletionResp.parsed j → (∀ xs, j ≠ Json.arr xs) →
      generateOutline topic numSlides resp = []) := by
  constructor
  · intro hf
    cases resp with
    | parsed j => simp [respFailed] at hf
    | throws => exact ⟨rfl, fun t ht => fallbackOutline_mem topic t ht⟩
    | noContent => exact ⟨rfl, fun t ht => fallbackOutline_mem topic t ht⟩
    | unparsable => exact ⟨rfl, fun t ht => fallbackOutline_mem topic t ht⟩
  · intro j hj hne
    subst hj
    cases j with
    | arr xs => exact absurd rfl (hne xs)
    | null => rfl
    | undef => rfl
    | bool b => rfl
    | num n => rfl
    | str s => rfl
    | obj fields => rfl

/-- Witness for C3 on an unparsable completion response. -/
theorem C3_witness :
    respFailed CompletionResp.unparsable = true ∧
    ((generateOutline "Solar" 4 CompletionResp.unparsable).length = 3 ∧
      ∀ t ∈ generateOutline "Solar" 4 CompletionResp.unparsable,
        ∃ pre post, t = Json.str (pre ++ "Solar" ++ post)) :=
  ⟨rfl, (C3_outline_failure_fallback "Solar" 4 CompletionResp.unparsable).1 rfl⟩

/-- Claim C4, counterexample: for an empty outline with slideCount 3
the code asks for 3 titles, but max(outlineLength, slideCount, 5)
is 5. -/
theorem C4_counterexample :
    computeNumSlides [] 3 ≠ max (max (List.length ([] : List OutlineEntry)) 3) 5 := by decide

/-- Claim C4 (amended): the number of titles the Outline Generator is
asked to produce is outline.length when the outline is non-empty,
otherwise slideCount when nonzero, otherwise 5 — not the maximum of
those quantities. -/
theorem C4_numSlides_formula (outline : List OutlineEntry) (slideCount : Nat) :
    (outline ≠ [] → computeNumSlides outline slideCount = outline.length) ∧
    (outline = [] → slideCount ≠ 0 → computeNumSlides outline slideCount = slideCount) ∧
    (outline = [] → slideCount = 0 → computeNumSlides outline slideCount = 5) := by
  refine ⟨?_, ?_, ?_⟩
  · intro h
    have hlen : outline.length ≠ 0 := by simpa [List.length_eq_zero] using h
    simp [computeNumSlides, hlen]
  · intro h hs
    subst h
    simp [computeNumSlides, hs]
  · intro h hs
    subst h
    subst hs
    rfl

/-- Witness for C4 on the empty outline with slideCount 3. -/
theorem C4_witness :
    (([] : List OutlineEntry) = [] ∧ (3 : Nat) ≠ 0) ∧ computeNumSlides [] 3 = 3 :=
  ⟨⟨rfl, by decide⟩, (C4_numSlides_formula [] 3).2.1 rfl (by decide)⟩

/-- Claim C5 (confirmed): for the request with title Solar Power,
empty outline, slideCount 3, Minimal text and imageSource None, the
/api/generate response has exactly 3 slides in title order, slide 1
has layout image-left, every slide's layout is one of the four
options, no slide carries an image, and meta.title is Solar Power.
The hypothesis states the one environment assumption the claim rests
on: the outline completion either fails outright (taking the
deterministic 3-title fallback) or returns the JSON array of 3 titles
it was asked for. -/
theorem C5_solar_end_to_end (theme imageStyle : String) (env : Env) (o : Oracle)
    (h : outlineRespYields3 o.outlineResp = true) :
    (handleGenerate (solarReq theme imageStyle) env o).slides.length = 3 ∧
    (∀ s ∈ (handleGenerate (solarReq theme imageStyle) env o).slides,
      s.image = none ∧ s.layout ∈ layoutOptions) ∧
    (∀ s, (handleGenerate (solarReq theme imageStyle) env o).slides.get? 0 = some s →
      s.layout = "image-left") ∧
    (handleGenerate (solarReq theme imageStyle) env o).slides.map SlideRecord.title
      = outlineTitlesOf (solarReq theme imageStyle) o.outlineResp ∧
    (handleGenerate (solarReq theme imageStyle) env o).meta.title = "Solar Power" := by
  have hslides : (handleGenerate (solarReq theme imageStyle) env o).slides
      = assembleSlides (solarReq theme imageStyle) env o
          (outlineTitlesOf (solarReq theme imageStyle) o.outlineResp) 0 := rfl
  have hlen3 : (outlineTitlesOf (solarReq theme imageStyle) o.outlineResp).length = 3 := by
    show (generateOutline "Solar Power" (computeNumSlides [] 3) o.outlineResp).length = 3
    cases ho : o.outlineResp with
    | throws => rfl
    | noContent => rfl
    | unparsable => rfl
    | parsed j =>
      cases j with
      | arr xs =>
        rw [ho] at h
        simp only [outlineRespYields3, beq_iff_eq] at h
        simpa [generateOutline] using h
      | null => rw [ho] at h; simp [outlineRespYields3] at h
      | undef => rw [ho] at h; simp [outlineRespYields3] at h
      | bool b => rw [ho] at h; simp [outlineRespYields3] at h
      | num n => rw [ho] at h; simp [outlineRespYields3] at h
      | str s => rw [ho] at h; simp [outlineRespYields3] at h
      | obj fields => rw [ho] at h; simp [outlineRespYields3] at h
  refine ⟨?_, ?_, ?_, ?_, rfl⟩
  · rw [hslides, assembleSlides_length]
    exact hlen3
  · intro s hsmem
    rw [hslides] at hsmem
    obtain ⟨i, t, rfl⟩ := mem_assembleSlides _ _ _ _ _ _ hsmem
    constructor
    · simp [assembleSlide, assembleSlideImage, solarReq]
    · exact chooseLayout_mem _ _
  · intro s hs
    rw [hslides, assembleSlides_get] at hs
    cases ht : (outlineTitlesOf (solarReq theme imageStyle) o.outlineResp).get? 0 with
    | none => rw [ht] at hs; simp at hs
    | some t =>
      rw [ht] at hs
      simp only [Option.map_some'] at hs
      injection hs with hs
      subst hs
      rfl
  · rw [hslides, assembleSlides_map_title]

/-- Witness for C5 on the all-failures oracle, whose outline fallback
produces exactly the 3 generic titles. -/
theorem C5_witness :
    outlineRespYields3 oracle0.outlineResp = true ∧
    ((handleGenerate (solarReq "default" "") ⟨none⟩ oracle0).slides.length = 3 ∧
      (∀ s ∈ (handleGenerate (solarReq "default" "") ⟨none⟩ oracle0).slides,
        s.image = none ∧ s.layout ∈ layoutOptions) ∧
      (∀ s, (handleGenerate (solarReq "default" "") ⟨none⟩ oracle0).slides.get? 0 = some s →
        s.layout = "image-left") ∧
      (handleGenerate (solarReq "default" "") ⟨none⟩ oracle0).slides.map SlideRecord.title
        = outlineTitlesOf (solarReq "default" "") oracle0.outlineResp ∧
      (handleGenerate (solarReq "default" "") ⟨none⟩ oracle0).meta.title = "Solar Power") :=
  ⟨rfl, C5_solar_end_to_end "default" "" ⟨none⟩ oracle0 rfl⟩

/-- Claim C6 (confirmed): when the image API key is absent from the
environment, generateIdeogramImage yields null for every prompt,
style and slide index, and POST /api/generate-image responds with an
ok body carrying imageUrl null rather than an error status. -/
theorem C6_missing_key_yields_null (env : Env) (h : env.ideogramApiKey = none)
    (prompt style : String) (slideIndex : Nat) (api : ImageApiResult)
    (dl : DownloadResult) (timestamp : Nat) :
    generateIdeogramImage env prompt style slideIndex api dl timestamp = none ∧
    handleGenerateImage env prompt style slideIndex api dl timestamp
      = HttpResult.ok { imageUrl := none } := by
  have hkey : jsTruthy env.ideogramApiKey = false := by rw [h]; rfl
  have h1 : generateIdeogramImage env prompt style slideIndex api dl timestamp = none := by
    simp [generateIdeogramImage, hkey]
  exact ⟨h1, by simp [handleGenerateImage, h1]⟩

/-- Witness for C6: even with a successful image API call and
download, a missing key yields imageUrl null. -/
theorem C6_witness :
    (Env.mk none).ideogramApiKey = none ∧
    (generateIdeogramImage (Env.mk none) "sunset" "photo" 2
        (ImageApiResult.ok (some "https://img.example/a.png")) DownloadResult.success 99
        = none ∧
      handleGenerateImage (Env.mk none) "sunset" "photo" 2
        (ImageApiResult.ok (some "https://img.example/a.png")) DownloadResult.success 99
        = HttpResult.ok { imageUrl := none }) :=
  ⟨rfl, C6_missing_key_yields_null (Env.mk none) rfl "sunset" "photo" 2
    (ImageApiResult.ok (some "https://img.example/a.png")) DownloadResult.success 99⟩

/-- Claim C7, counterexample: for a slide index other than 0 and 2 the
Concise budget (200) exceeds the Detailed budget (180), so the budget
does not scale in the same decreasing manner as the slide-2 table
(where Concise 150 is below Detailed 180). -/
theorem C7_counterexample :
    ¬ (slideContentMaxTokens 1 "Concise" ≤ slideContentMaxTokens 1 "Detailed") := by decide

/-- Claim C7 (amended): the budget is 250 for slide index 0 regardless
of amountOfText, and 200/180/150/120 at slide index 2 for
Extensive/Detailed/Concise/Minimal; for every other slide index it is
200 for Extensive, 180 for Detailed, and 200 for both Concise and
Minimal — not monotone in text density. -/
theorem C7_token_budget_table (amountOfText : String) (idx : Nat)
    (h0 : idx ≠ 0) (h2 : idx ≠ 2) :
    slideContentMaxTokens 0 amountOfText = 250 ∧
    slideContentMaxTokens 2 "Extensive" = 200 ∧ slideContentMaxTokens 2 "Detailed" = 180 ∧
    slideContentMaxTokens 2 "Concise" = 150 ∧ slideContentMaxTokens 2 "Minimal" = 120 ∧
    slideContentMaxTokens idx "Extensive" = 200 ∧ slideContentMaxTokens idx "Detailed" = 180 ∧
    slideContentMaxTokens idx "Concise" = 200 ∧ slideContentMaxTokens idx "Minimal" = 200 := by
  refine ⟨rfl, by decide, by decide, by decide, by decide, ?_, ?_, ?_, ?_⟩ <;>
    simp [slideContentMaxTokens, h0, h2]

/-- Witness for C7 at slide index 7. -/
theorem C7_witness :
    ((7 : Nat) ≠ 0 ∧ (7 : Nat) ≠ 2) ∧
    (slideContentMaxTokens 0 "Minimal" = 250 ∧
      slideContentMaxTokens 2 "Extensive" = 200 ∧ slideContentMaxTokens 2 "Detailed" = 180 ∧
      slideContentMaxTokens 2 "Concise" = 150 ∧ slideContentMaxTokens 2 "Minimal" = 120 ∧
      slideContentMaxTokens 7 "Extensive" = 200 ∧ slideContentMaxTokens 7 "Detailed" = 180 ∧
      slideContentMaxTokens 7 "Concise" = 200 ∧ slideContentMaxTokens 7 "Minimal" = 200) :=
  ⟨⟨by decide, by decide⟩, C7_token_budget_table "Minimal" 7 (by decide) (by decide)⟩

/-- Claim C8, counterexample: sanitization does not remove
non-alphanumeric characters — the space in the prompt survives as an
underscore, itself non-alphanumeric. -/
theorem C8_counterexample :
    ¬ (∀ c ∈ (sanitizedPrompt "a b").data, isAlphanumAscii c = true) := by decide

/-- Claim C8 (amended): generateImageFilename is a pure function of
exactly (prompt, slideIndex, timestamp); sanitization replaces every
non-alphanumeric character of the prompt fragment with an underscore
(rather than removing it) and truncates the fragment to at most 20
characters. -/
theorem C8_filename_sanitization (prompt : String) (index timestamp : Nat) :
    generateImageFilename prompt index timestamp
      = "slide_" ++ toString index ++ "_" ++ sanitizedPrompt prompt ++ "_" ++
        toString timestamp ++ ".jpg" ∧
    (sanitizedPrompt prompt).data.length ≤ 20 ∧
    (∀ c ∈ (sanitizedPrompt prompt).data, isAlphanumAscii c = true ∨ c = '_') := by
  refine ⟨rfl, ?_, ?_⟩
  · show ((prompt.data.map fun c => if isAlphanumAscii c then c else '_').take 20).length ≤ 20
    simp [List.length_take]
  · intro c hc
    have hc2 : c ∈ prompt.data.map (fun c => if isAlphanumAscii c then c else '_') :=
      List.take_subset _ _ hc
    obtain ⟨c0, _, rfl⟩ := List.mem_map.mp hc2
    by_cases hy : isAlphanumAscii c0 = true
    · left
      simp [hy]
    · right
      simp [hy]

/-- Witness for C8 on a prompt with spaces and punctuation. -/
theorem C8_witness :
    generateImageFilename "a product photo!" 3 12345
      = "slide_" ++ toString 3 ++ "_" ++ sanitizedPrompt "a product photo!" ++ "_" ++
        toString 12345 ++ ".jpg" ∧
    (sanitizedPrompt "a product photo!").data.length ≤ 20 ∧
    (∀ c ∈ (sanitizedPrompt "a product photo!").data, isAlphanumAscii c = true ∨ c = '_') :=
  C8_filename_sanitization "a product photo!" 3 12345

/-- Claim C9, counterexample: in an outline whose second entry lacks a
title, an entry lacks a title yet the supplied outline is still used
(the generator is not invoked, and the missing title flows through as
undefined) — the code inspects only the first entry. -/
theorem C9_counterexample :
    (∃ e ∈ ([{ title := some "A" }, { title := none }] : List OutlineEntry), e.title = none) ∧
    usesSuppliedOutline [{ title := some "A" }, { title := none }] = true ∧
    outlineTitlesOf
      { title := "T", outline := [{ title := some "A" }, { title := none }], theme := "t",
        amountOfText := "Minimal", slideCount := 0, imageSource := "None", imageStyle := "" }
      CompletionResp.throws
      = [Json.str "A", Json.undef] := by
  refine ⟨⟨{ title := none }, ?_, rfl⟩, rfl, rfl⟩
  simp

/-- Claim C9 (amended): the response slides follow the chosen title
list; the Outline Generator is bypassed if and only if the outline is
non-empty and its FIRST entry has a truthy title, in which case the
supplied entries' titles are used verbatim regardless of later
entries; otherwise the generator's output is used with the computed
slide count. -/
theorem C9_outline_dispatch (req : GenerationRequest) (env : Env) (o : Oracle) :
    ((handleGenerate req env o).slides.map SlideRecord.title
      = outlineTitlesOf req o.outlineResp) ∧
    (usesSuppliedOutline req.outline = false ↔
      (req.outline = [] ∨ ∃ e rest, req.outline = e :: rest ∧ jsTruthy e.title = false)) ∧
    (∀ e rest, req.outline = e :: rest → jsTruthy e.title = true →
      outlineTitlesOf req o.outlineResp = req.outline.map (fun x => jsonOfTitle x.title)) ∧
    (usesSuppliedOutline req.outline = false →
      outlineTitlesOf req o.outlineResp
        = generateOutline req.title (computeNumSlides req.outline req.slideCount)
            o.outlineResp) := by
  refine ⟨assembleSlides_map_title _ _ _ _ _, ?_, ?_, ?_⟩
  · cases hout : req.outline with
    | nil => simp [usesSuppliedOutline]
    | cons e rest =>
      simp only [usesSuppliedOutline]
      constructor
      · intro hf
        right
        exact ⟨e, rest, rfl, hf⟩
      · rintro (h | ⟨e2, rest2, heq, hf⟩)
        · exact absurd h (List.cons_ne_nil e rest)
        · injection heq with h1 h2
          subst h1
          exact hf
  · intro e rest he ht
    unfold outlineTitlesOf
    rw [he]
    simp [usesSuppliedOutline, ht]
  · intro hf
    simp [outlineTitlesOf, hf]

/-- Witness for C9 at a concrete request with a supplied one-entry
outline. -/
theorem C9_witness :
    ((handleGenerate reqA ⟨none⟩ oracle0).slides.map SlideRecord.title
      = outlineTitlesOf reqA oracle0.outlineResp) ∧
    (usesSuppliedOutline reqA.outline = false ↔
      (reqA.outline = [] ∨ ∃ e rest, reqA.outline = e :: rest ∧ jsTruthy e.title = false)) ∧
    (∀ e rest, reqA.outline = e :: rest → jsTruthy e.title = true →
      outlineTitlesOf reqA oracle0.outlineResp
        = reqA.outline.map (fun x => jsonOfTitle x.title)) ∧
    (usesSuppliedOutline reqA.outline = false →
      outlineTitlesOf reqA oracle0.outlineResp
        = generateOutline reqA.title (computeNumSlides reqA.outline reqA.slideCount)
            oracle0.outlineResp) :=
  C9_outline_dispatch reqA ⟨none⟩ oracle0

/-- Claim C10 (confirmed): every slide of a /api/generate response has
id slide-(1-based position) and the request's theme, and whenever an
image is present its alt is the slide's title, its source the
request's imageSource, and its style the request's imageStyle. -/
theorem C10_slide_record_fields (req : GenerationRequest) (env : Env) (o : Oracle)
    (i : Nat) (s : SlideRecord)
    (hs : (handleGenerate req env o).slides.get? i = some s) :
    s.id = "slide-" ++ toString (i + 1) ∧ s.theme = req.theme ∧
    (∀ img, s.image = some img →
      img.alt = s.title ∧ img.source = req.imageSource ∧ img.style = req.imageStyle) := by
  have hslides : (handleGenerate req env o).slides
      = assembleSlides req env o (outlineTitlesOf req o.outlineResp) 0 := rfl
  rw [hslides, assembleSlides_get] at hs
  cases ht : (outlineTitlesOf req o.outlineResp).get? i with
  | none => rw [ht] at hs; simp at hs
  | some t =>
    rw [ht] at hs
    simp only [Option.map_some'] at hs
    injection hs with hs
    subst hs
    refine ⟨?_, rfl, ?_⟩
    · show "slide-" ++ toString (0 + i + 1) = "slide-" ++ toString (i + 1)
      rw [Nat.zero_add]
    · intro img himg
      simp only [assembleSlide] at himg
      rcases Option.map_eq_some'.mp himg with ⟨u, hu, rfl⟩
      exact ⟨rfl, rfl, rfl⟩

/-- Witness for C10 on a concrete two-slide request whose second slide
carries an image. -/
theorem C10_witness :
    (handleGenerate reqImg envImg oracleImg).slides.get? 1 = some slideB ∧
    (slideB.id = "slide-" ++ toString (1 + 1) ∧ slideB.theme = reqImg.theme ∧
      (∀ img, slideB.image = some img →
        img.alt = slideB.title ∧ img.source = reqImg.imageSource ∧
          img.style = reqImg.imageStyle)) := by
  have hs : (handleGenerate reqImg envImg oracleImg).slides.get? 1 = some slideB := by
    simp only [handleGenerate, reqImg, envImg, oracleImg, outlineTitlesOf, usesSuppliedOutline,
      jsTruthy, jsonOfTitle, assembleSlides, assembleSlide, assembleSlideImage,
      generateIdeogramImage, downloadAndSaveImage, generateImageFilename,
      jsStringOfJson_str, slideB]
    rfl
  exact ⟨hs, C10_slide_record_fields reqImg envImg oracleImg 1 slideB hs⟩

end Lisa
